import Mathlib

/-!
Shallow embedding of the Kalix regression-verification harness
(`regression_tests/verify_all_models.py` and
`regression_tests/simulations/verify_all_models.py`).

The two source files are near-identical: they differ in the engine command
(`kalixcli sim` vs `kalix simulate`), in the default reference-artifact name
(`mbal_for_verification.txt` vs `mbal.txt`), and in that the simulations
variant mirrors all console output into a log file that is deleted at the
start of the run and written once at the end.  The shared logic is embedded
once (`verifyCore`, `find_model_files`, ...) and each variant's `main` lives
in its own namespace.

Modelling decisions:
* The filesystem enumeration is represented by the output of `os.walk`: a
  list of `(directory path, file names in that directory)` pairs.  By the
  documented semantics of `os.walk` (errors from `scandir` are ignored when
  `onerror` is `None`), a root that does not exist or is not a directory
  yields no pairs at all, i.e. the empty list.
* The engine subprocess is represented by `EngineBehavior`: either it runs
  for some wall-clock duration and then exits with a return code and captured
  stdout/stderr, or spawning/communication raises a fault with a description
  (Python's `Exception`).  `subprocess.run` with a timeout is `runSubprocess`.
* `os.path.exists` is an oracle `Env.pathExists`; the engine's behavior is an
  oracle `Env.engine` keyed by the argv list and the working directory.
* `VerifyResult.engineInvocations` instruments how many subprocess launches
  `verify_model` attempts (0 or 1), so that "the engine is never invoked"
  is statable; it corresponds to the spy/stub engine of the spec's tests.
-/

/-- Substring containment, Python's `needle in haystack` for strings. -/
def strContains (s pat : String) : Bool :=
  decide (pat.data <:+: s.data)

/-- Python's `str.endswith` on strings. -/
def strEndsWith (s t : String) : Bool :=
  decide (t.data <:+ s.data)

/-- Characters of a path split around its last separator, `none` when the
path has no separator at all. -/
def splitLastSlash : List Char → Option (List Char × List Char)
  | [] => none
  | c :: cs =>
    match splitLastSlash cs with
    | some (d, f) => some (c :: d, f)
    | none => if c = '/' then some ([], cs) else none

/-- Model of `os.path.dirname`: everything before the last separator
(empty when there is none; drive/root edge cases are out of scope because
walk-produced paths never hit them). -/
def dirname (p : String) : String :=
  match splitLastSlash p.data with
  | none => ""
  | some (d, _) => String.mk d

/-- Model of `os.path.basename`: everything after the last separator. -/
def basename (p : String) : String :=
  match splitLastSlash p.data with
  | none => p
  | some (_, f) => String.mk f

/-- Model of `os.path.join` for a directory and a relative file name. -/
def pathJoin (d f : String) : String :=
  if d = "" then f
  else if d.data.getLast? = some '/' then d ++ f
  else d ++ "/" ++ f

/-- Model of `os.path.relpath` for the paths this harness produces: strips
the root directory prefix from a path below the root. -/
def relpath (p root : String) : String :=
  if (root ++ "/").isPrefixOf p then p.drop (root.length + 1)
  else if p = root then "." else p

/-- Output of `os.walk`: for each visited directory, its path together with
the names of the plain files it contains, in enumeration order.  A root that
does not exist or is not a directory yields the empty list (`os.walk`
silently ignores the `scandir` error when `onerror` is `None`). -/
abbrev WalkOutput := List (String × List String)

/-- The `ini_files` accumulator of `find_model_files`: every file whose name
ends with `.ini`, as `os.path.join(root, file)`, in walk order. -/
def ini_files (walkOut : WalkOutput) : List String :=
  walkOut.flatMap fun pr =>
    (pr.2.filter fun f => strEndsWith f ".ini").map fun f => pathJoin pr.1 f

/-- Embedding of `find_model_files`: collect all `.ini` files in the tree
and return `sorted(ini_files)`. -/
def find_model_files (walkOut : WalkOutput) : List String :=
  List.mergeSort (ini_files walkOut)

/-- Behavior of the external engine process for one invocation: it either
runs to completion after `duration` wall-clock seconds, or spawning /
communicating with it raises a fault (e.g. the binary is missing). -/
inductive EngineBehavior where
  | runs (duration : Nat) (returncode : Int) (stdout stderr : String)
  | raises (description : String)
deriving DecidableEq

/-- Outcome of `subprocess.run(..., timeout=...)`: normal completion,
`TimeoutExpired`, or some other exception. -/
inductive SubprocessOutcome where
  | completed (returncode : Int) (stdout stderr : String)
  | timedOut
  | raised (description : String)
deriving DecidableEq

/-- Model of `subprocess.run` with a timeout: if the process needs longer
than `timeoutSecs` of wall-clock time it is terminated and `TimeoutExpired`
is raised, otherwise its exit status and captured output are returned. -/
def runSubprocess (timeoutSecs : Nat) (b : EngineBehavior) : SubprocessOutcome :=
  match b with
  | .runs d rc out err => if timeoutSecs < d then .timedOut else .completed rc out err
  | .raises desc => .raised desc

/-- Environment oracles: `os.path.exists`, and the engine's behavior as a
function of the argv list and the working directory of the launch. -/
structure Env where
  pathExists : String → Bool
  engine : List String → String → EngineBehavior

/-- Result of `verify_model`, the source's `(success, message)` tuple,
instrumented with the number of subprocess launches attempted. -/
structure VerifyResult where
  success : Bool
  message : String
  engineInvocations : Nat
deriving DecidableEq

/-- The `mbal_path` local of `verify_model`:
`os.path.join(os.path.dirname(model_path), mbal_filename)`. -/
def mbal_path (model_path mbal_filename : String) : String :=
  pathJoin (dirname model_path) mbal_filename

/-- Shared body of the two variants' `verify_model` (they differ only in the
engine binary and subcommand names, abstracted as `binName`/`subcommand`):
check that the mass balance file exists, run the engine with a 300 second
timeout in the model's directory, and classify the outcome. -/
def verifyCore (binName subcommand : String) (env : Env)
    (model_path mbal_filename : String) : VerifyResult :=
  let model_dir := dirname model_path
  let model_file := basename model_path
  if !env.pathExists (mbal_path model_path mbal_filename) then
    { success := false
      message := "Mass balance file not found: " ++ mbal_path model_path mbal_filename
      engineInvocations := 0 }
  else
    match runSubprocess 300
        (env.engine [binName, subcommand, model_file, "-v", mbal_filename] model_dir) with
    | .completed rc out err =>
      if rc = 0 then
        if strContains out "VERIFIED!" then
          { success := true, message := "VERIFIED!", engineInvocations := 1 }
        else
          { success := false, message := "Verification unclear: " ++ out, engineInvocations := 1 }
      else
        { success := false
          message := "Failed: " ++ (if err ≠ "" then err else out)
          engineInvocations := 1 }
    | .timedOut =>
      { success := false, message := "Timeout: Model took too long to run", engineInvocations := 1 }
    | .raised desc =>
      { success := false, message := "Error: " ++ desc, engineInvocations := 1 }

/-- The `"=" * 80` separator line. -/
def eqBar : String := String.mk (List.replicate 80 '=')

/-- Number of successful outcomes, `sum(1 for _, success, _ in results if success)`. -/
def passedCount (results : List (String × Bool × String)) : Nat :=
  (results.filter fun t => t.2.1).length

/-- Failure count as the code computes it: `len(results) - passed`. -/
def failedCount (results : List (String × Bool × String)) : Nat :=
  results.length - passedCount results

/-- Result of one whole run of the base variant's `main`: the console lines
printed (in order), the `results` list, and the `sys.exit` status. -/
structure MainResult where
  lines : List String
  results : List (String × Bool × String)
  exitCode : Nat
deriving DecidableEq

namespace VerifyAllModels

/-- Embedding of `verify_model` from `regression_tests/verify_all_models.py`
(engine `kalixcli sim`, default artifact `mbal_for_verification.txt`). -/
def verify_model (env : Env) (model_path : String)
    (mbal_filename : String := "mbal_for_verification.txt") : VerifyResult :=
  verifyCore "kalixcli" "sim" env model_path mbal_filename

/-- Embedding of `main` from `regression_tests/verify_all_models.py`.
`root_dir` is the already-resolved search root and `walkOut` the filesystem
enumeration `os.walk` produces for it. -/
def main (env : Env) (root_dir : String) (walkOut : WalkOutput) : MainResult :=
  let headerLines := ["Searching for model files in: " ++ root_dir, eqBar]
  let model_files := find_model_files walkOut
  if model_files.isEmpty then
    { lines := headerLines ++ ["No .ini files found!"], results := [], exitCode := 1 }
  else
    let step := model_files.map fun mp => (relpath mp root_dir, verify_model env mp)
    let perModel := step.flatMap fun pr =>
      ["Verifying: " ++ pr.1, (if pr.2.success then "  ✓ " else "  ✗ ") ++ pr.2.message, ""]
    let results := step.map fun pr => (pr.1, pr.2.success, pr.2.message)
    let passed := passedCount results
    let failed := failedCount results
    let summaryLines := [eqBar, "SUMMARY", eqBar,
      "Total: " ++ toString results.length,
      "Passed: " ++ toString passed,
      "Failed: " ++ toString failed]
    let tail := if 0 < failed then
        "\nFailed models:" ::
          (results.filter fun t => !t.2.1).flatMap fun t => ["  - " ++ t.1, "    " ++ t.2.2]
      else ["\n✓ All models verified successfully!"]
    { lines := headerLines
        ++ ["Found " ++ toString model_files.length ++ " model file(s)\n"]
        ++ perModel ++ summaryLines ++ tail
      results := results
      exitCode := if 0 < failed then 1 else 0 }

end VerifyAllModels

/-- Filesystem side effects the simulations variant performs, in execution
order: deleting the log file (a no-op when absent), printing one console
line (also buffered in `output_lines`), and the single final log write. -/
inductive Ev where
  | deleteLog
  | emit (line : String)
  | writeLog (content : String)
deriving DecidableEq

/-- True exactly for console-line events. -/
def Ev.isEmit : Ev → Bool
  | .emit _ => true
  | _ => false

/-- Contents of the log file after a (possibly partial) run of the event
trace, starting from a pre-existing state `init`. -/
def logFileAfter (init : Option String) : List Ev → Option String
  | [] => init
  | .deleteLog :: rest => logFileAfter none rest
  | .emit _ :: rest => logFileAfter init rest
  | .writeLog c :: rest => logFileAfter (some c) rest

/-- Console lines emitted along a trace, in order. -/
def emittedLines (l : List Ev) : List String :=
  l.filterMap fun e => match e with
    | .emit s => some s
    | _ => none

/-- Result of one whole run of the simulations variant's `main`: its ordered
filesystem/console effects and the `sys.exit` status. -/
structure SimRun where
  events : List Ev
  results : List (String × Bool × String)
  exitCode : Nat
deriving DecidableEq

namespace Simulations

/-- Embedding of `verify_model` from
`regression_tests/simulations/verify_all_models.py`
(engine `kalix simulate`, default artifact `mbal.txt`). -/
def verify_model (env : Env) (model_path : String)
    (mbal_filename : String := "mbal.txt") : VerifyResult :=
  verifyCore "kalix" "simulate" env model_path mbal_filename

/-- Embedding of `main` from
`regression_tests/simulations/verify_all_models.py`: delete any pre-existing
log file first, run the pipeline mirroring every printed line into
`output_lines`, and on reaching the end write
`'\n'.join(output_lines) + '\n'` to the log file in one write.  The early
`sys.exit(1)` for an empty discovery happens before the write, so that path
emits no `writeLog` event.  `timestamp` stands for `datetime.now().isoformat()`. -/
def main (env : Env) (root_dir : String) (walkOut : WalkOutput)
    (timestamp : String) : SimRun :=
  let headerLines := ["Searching for model files in: " ++ root_dir, eqBar]
  let model_files := find_model_files walkOut
  if model_files.isEmpty then
    { events := Ev.deleteLog :: (headerLines ++ ["No .ini files found!"]).map Ev.emit
      results := []
      exitCode := 1 }
  else
    let step := model_files.map fun mp => (relpath mp root_dir, verify_model env mp)
    let perModel := step.flatMap fun pr =>
      ["Verifying: " ++ pr.1, (if pr.2.success then "  ✓ " else "  ✗ ") ++ pr.2.message, ""]
    let results := step.map fun pr => (pr.1, pr.2.success, pr.2.message)
    let passed := passedCount results
    let failed := failedCount results
    let summaryLines := [eqBar, "SUMMARY", eqBar,
      "Timestamp: " ++ timestamp,
      "Total: " ++ toString results.length,
      "Passed: " ++ toString passed,
      "Failed: " ++ toString failed]
    let tail := if 0 < failed then
        "\nFailed models:" ::
          (results.filter fun t => !t.2.1).flatMap fun t => ["  - " ++ t.1, "    " ++ t.2.2]
      else ["\n✓ All models verified successfully!"]
    let output_lines := headerLines
      ++ ["Found " ++ toString model_files.length ++ " model file(s)\n"]
      ++ perModel ++ summaryLines ++ tail
    { events := Ev.deleteLog :: output_lines.map Ev.emit
        ++ [Ev.writeLog (String.intercalate "\n" output_lines ++ "\n")]
      results := results
      exitCode := if 0 < failed then 1 else 0 }

end Simulations

/-! ### Helper lemmas about `verifyCore` -/

theorem strContains_append_right (a b : String) : strContains (a ++ b) b = true := by
  simp only [strContains, String.data_append, decide_eq_true_eq]
  exact ⟨a.data, [], by simp⟩

theorem verifyCore_not_found (bin sub : String) (env : Env) (mp mbal : String)
    (hex : env.pathExists (mbal_path mp mbal) = false) :
    verifyCore bin sub env mp mbal =
      ⟨false, "Mass balance file not found: " ++ mbal_path mp mbal, 0⟩ := by
  simp [verifyCore, hex]

theorem verifyCore_completed (bin sub : String) (env : Env) (mp mbal : String)
    (d : Nat) (rc : Int) (out err : String)
    (hex : env.pathExists (mbal_path mp mbal) = true)
    (heng : env.engine [bin, sub, basename mp, "-v", mbal] (dirname mp)
      = EngineBehavior.runs d rc out err)
    (hd : d ≤ 300) :
    verifyCore bin sub env mp mbal =
      if rc = 0 then
        if strContains out "VERIFIED!" then ⟨true, "VERIFIED!", 1⟩
        else ⟨false, "Verification unclear: " ++ out, 1⟩
      else ⟨false, "Failed: " ++ (if err ≠ "" then err else out), 1⟩ := by
  simp only [verifyCore, hex, Bool.not_true, Bool.false_eq_true, if_false, heng,
    runSubprocess, Nat.not_lt.mpr hd, if_neg (Nat.not_lt.mpr hd)]

theorem verifyCore_timeout (bin sub : String) (env : Env) (mp mbal : String)
    (d : Nat) (rc : Int) (out err : String)
    (hex : env.pathExists (mbal_path mp mbal) = true)
    (heng : env.engine [bin, sub, basename mp, "-v", mbal] (dirname mp)
      = EngineBehavior.runs d rc out err)
    (hd : 300 < d) :
    verifyCore bin sub env mp mbal =
      ⟨false, "Timeout: Model took too long to run", 1⟩ := by
  simp only [verifyCore, hex, Bool.not_true, Bool.false_eq_true, if_false, heng,
    runSubprocess, if_pos hd]

theorem verifyCore_raised (bin sub : String) (env : Env) (mp mbal : String) (desc : String)
    (hex : env.pathExists (mbal_path mp mbal) = true)
    (heng : env.engine [bin, sub, basename mp, "-v", mbal] (dirname mp)
      = EngineBehavior.raises desc) :
    verifyCore bin sub env mp mbal = ⟨false, "Error: " ++ desc, 1⟩ := by
  simp only [verifyCore, hex, Bool.not_true, Bool.false_eq_true, if_false, heng,
    runSubprocess]

/-! ### Helper lemmas about counting and `main` -/

theorem passedCount_le_length (rs : List (String × Bool × String)) :
    passedCount rs ≤ rs.length :=
  List.length_filter_le _ _

theorem passedCount_eq_length_iff (rs : List (String × Bool × String)) :
    passedCount rs = rs.length ↔ ∀ t ∈ rs, t.2.1 = true := by
  unfold passedCount
  constructor
  · intro h t ht
    have hfe : rs.filter (fun t => t.2.1) = rs :=
      (List.filter_sublist rs).eq_of_length h
    have := List.filter_eq_self.mp hfe
    exact this t ht
  · intro h
    rw [List.filter_eq_self.mpr h]

theorem main_results_eq (env : Env) (root_dir : String) (walkOut : WalkOutput) :
    (VerifyAllModels.main env root_dir walkOut).results
      = (find_model_files walkOut).map fun mp =>
          (relpath mp root_dir, (VerifyAllModels.verify_model env mp).success,
            (VerifyAllModels.verify_model env mp).message) := by
  unfold VerifyAllModels.main
  by_cases h : (find_model_files walkOut).isEmpty
  · rw [List.isEmpty_iff] at h
    simp [h]
  · simp only [h, if_false, Bool.false_eq_true, List.map_map]
    rfl

theorem main_exitCode_eq (env : Env) (root_dir : String) (walkOut : WalkOutput) :
    (VerifyAllModels.main env root_dir walkOut).exitCode
      = if (find_model_files walkOut).isEmpty then 1
        else if 0 < failedCount (VerifyAllModels.main env root_dir walkOut).results then 1
        else 0 := by
  unfold VerifyAllModels.main
  by_cases h : (find_model_files walkOut).isEmpty
  · simp [h]
  · simp only [h, if_false, Bool.false_eq_true, List.map_map]

/-! ### Claims about `verify_model` -/

/-- C1: for every model whose reference artifact exists and whose engine
subprocess completes normally with exit status zero, if the captured stdout
contains the literal substring "VERIFIED!" then `verify_model` returns a
success outcome whose message is exactly "VERIFIED!"; otherwise it returns a
failure outcome (never success) whose message includes the captured stdout. -/
theorem C1_sentinel_classification (bin sub : String) (env : Env) (mp mbal : String)
    (d : Nat) (out err : String)
    (hex : env.pathExists (mbal_path mp mbal) = true)
    (heng : env.engine [bin, sub, basename mp, "-v", mbal] (dirname mp)
      = EngineBehavior.runs d 0 out err)
    (hd : d ≤ 300) :
    (strContains out "VERIFIED!" = true →
      verifyCore bin sub env mp mbal = ⟨true, "VERIFIED!", 1⟩) ∧
    (strContains out "VERIFIED!" = false →
      (verifyCore bin sub env mp mbal).success = false ∧
      strContains (verifyCore bin sub env mp mbal).message out = true) := by
  have hc := verifyCore_completed bin sub env mp mbal d 0 out err hex heng hd
  rw [if_pos rfl] at hc
  constructor
  · intro hs
    rw [hc, if_pos hs]
  · intro hs
    rw [hc, if_neg (by simp [hs])]
    exact ⟨rfl, strContains_append_right "Verification unclear: " out⟩

/-- Witness for C1 at concrete inputs: a stub engine exiting 0 with
"VERIFIED!" in stdout yields exactly `(True, "VERIFIED!")`, and one exiting 0
without the sentinel yields a failure whose message includes the stdout. -/
theorem C1_sentinel_classification_witness :
    verifyCore "kalixcli" "sim"
      { pathExists := fun _ => true, engine := fun _ _ => EngineBehavior.runs 0 0 "VERIFIED!" "" }
      "models/a.ini" "mbal_for_verification.txt" = ⟨true, "VERIFIED!", 1⟩ ∧
    ((verifyCore "kalix" "simulate"
        { pathExists := fun _ => true, engine := fun _ _ => EngineBehavior.runs 0 0 "no luck" "" }
        "models/a.ini" "mbal.txt").success = false ∧
      strContains (verifyCore "kalix" "simulate"
        { pathExists := fun _ => true, engine := fun _ _ => EngineBehavior.runs 0 0 "no luck" "" }
        "models/a.ini" "mbal.txt").message "no luck" = true) :=
  ⟨(C1_sentinel_classification "kalixcli" "sim" _ "models/a.ini" "mbal_for_verification.txt"
      0 "VERIFIED!" "" rfl rfl (by decide)).1 (by decide),
   (C1_sentinel_classification "kalix" "simulate" _ "models/a.ini" "mbal.txt"
      0 "no luck" "" rfl rfl (by decide)).2 (by decide)⟩

/-- C2: for every model whose reference artifact (resolved as
`<model's directory>/<reference file name>`) does not exist, `verify_model`
returns a failure outcome whose message names the missing path, and the
engine subprocess is never invoked for that model. -/
theorem C2_missing_reference_artifact (bin sub : String) (env : Env) (mp mbal : String)
    (hex : env.pathExists (mbal_path mp mbal) = false) :
    verifyCore bin sub env mp mbal
      = ⟨false, "Mass balance file not found: " ++ mbal_path mp mbal, 0⟩ ∧
    strContains (verifyCore bin sub env mp mbal).message (mbal_path mp mbal) = true ∧
    (verifyCore bin sub env mp mbal).engineInvocations = 0 := by
  have h := verifyCore_not_found bin sub env mp mbal hex
  refine ⟨h, ?_, by rw [h]⟩
  rw [h]
  exact strContains_append_right _ _

/-- Witness for C2 at a concrete input: with no mass balance file next to the
model, the outcome is the not-found failure and zero engine launches. -/
theorem C2_missing_reference_artifact_witness :
    verifyCore "kalixcli" "sim"
      { pathExists := fun _ => false, engine := fun _ _ => EngineBehavior.runs 0 0 "VERIFIED!" "" }
      "models/a.ini" "mbal_for_verification.txt"
      = ⟨false, "Mass balance file not found: models/mbal_for_verification.txt", 0⟩ ∧
    (verifyCore "kalixcli" "sim"
      { pathExists := fun _ => false, engine := fun _ _ => EngineBehavior.runs 0 0 "VERIFIED!" "" }
      "models/a.ini" "mbal_for_verification.txt").engineInvocations = 0 := by
  have h := C2_missing_reference_artifact "kalixcli" "sim"
    { pathExists := fun _ => false, engine := fun _ _ => EngineBehavior.runs 0 0 "VERIFIED!" "" }
    "models/a.ini" "mbal_for_verification.txt" rfl
  exact ⟨h.1.trans (by decide), h.2.2⟩

/-- C6: the engine subprocess runs under a wall-clock timeout of exactly 300
seconds; a run needing more than 300 seconds is cut off and classified as a
failure with the code's timeout message ("Timeout: Model took too long to
run", the report that the time limit was exceeded), while a run within the
bound completes normally. -/
theorem C6_timeout_bound (bin sub : String) (env : Env) (mp mbal : String)
    (d : Nat) (rc : Int) (out err : String)
    (hex : env.pathExists (mbal_path mp mbal) = true)
    (heng : env.engine [bin, sub, basename mp, "-v", mbal] (dirname mp)
      = EngineBehavior.runs d rc out err) :
    (300 < d → verifyCore bin sub env mp mbal
      = ⟨false, "Timeout: Model took too long to run", 1⟩) ∧
    (d ≤ 300 → runSubprocess 300 (env.engine [bin, sub, basename mp, "-v", mbal] (dirname mp))
      = SubprocessOutcome.completed rc out err) := by
  constructor
  · intro hd
    exact verifyCore_timeout bin sub env mp mbal d rc out err hex heng hd
  · intro hd
    rw [heng]
    simp [runSubprocess, Nat.not_lt.mpr hd]

/-- Witness for C6 at concrete inputs: a 301-second engine run is classified
as the timeout failure, and a 300-second run still completes. -/
theorem C6_timeout_bound_witness :
    verifyCore "kalixcli" "sim"
      { pathExists := fun _ => true, engine := fun _ _ => EngineBehavior.runs 301 0 "VERIFIED!" "" }
      "models/a.ini" "mbal_for_verification.txt"
      = ⟨false, "Timeout: Model took too long to run", 1⟩ ∧
    runSubprocess 300 (EngineBehavior.runs 300 0 "VERIFIED!" "")
      = SubprocessOutcome.completed 0 "VERIFIED!" "" :=
  ⟨(C6_timeout_bound "kalixcli" "sim" _ "models/a.ini" "mbal_for_verification.txt"
      301 0 "VERIFIED!" "" rfl rfl).1 (by decide),
   (C6_timeout_bound "kalixcli" "sim"
      { pathExists := fun _ => true, engine := fun _ _ => EngineBehavior.runs 300 0 "VERIFIED!" "" }
      "models/a.ini" "mbal_for_verification.txt"
      300 0 "VERIFIED!" "" rfl rfl).2 (by decide)⟩

/-- C7 counterexample: with exit status 1, captured stdout "out text" and
captured stderr "boom", the diagnostic message is "Failed: boom", which is
not the captured standard error itself, so the claim's message equation
fails as stated. -/
theorem C7_counterexample :
    (verifyCore "kalixcli" "sim"
      { pathExists := fun _ => true, engine := fun _ _ => EngineBehavior.runs 0 1 "out text" "boom" }
      "models/a.ini" "mbal_for_verification.txt").message = "Failed: boom" ∧
    "Failed: boom" ≠ "boom" := by
  constructor
  · rfl
  · decide

/-- C7 as amended: for every model whose engine subprocess completes with a
non-zero exit status, `verify_model` returns a failure outcome whose
diagnostic message is "Failed: " followed by the captured standard error if
it is non-empty, otherwise by the captured standard output. -/
theorem C7_nonzero_exit_diagnostic (bin sub : String) (env : Env) (mp mbal : String)
    (d : Nat) (rc : Int) (out err : String)
    (hex : env.pathExists (mbal_path mp mbal) = true)
    (heng : env.engine [bin, sub, basename mp, "-v", mbal] (dirname mp)
      = EngineBehavior.runs d rc out err)
    (hd : d ≤ 300) (hrc : rc ≠ 0) :
    verifyCore bin sub env mp mbal
      = ⟨false, "Failed: " ++ (if err ≠ "" then err else out), 1⟩ := by
  rw [verifyCore_completed bin sub env mp mbal d rc out err hex heng hd, if_neg hrc]

/-- Witness for the amended C7 at concrete inputs: non-empty stderr is
preferred, empty stderr falls back to stdout. -/
theorem C7_nonzero_exit_diagnostic_witness :
    verifyCore "kalixcli" "sim"
      { pathExists := fun _ => true, engine := fun _ _ => EngineBehavior.runs 0 1 "out text" "boom" }
      "models/a.ini" "mbal_for_verification.txt" = ⟨false, "Failed: boom", 1⟩ ∧
    verifyCore "kalixcli" "sim"
      { pathExists := fun _ => true, engine := fun _ _ => EngineBehavior.runs 0 1 "out text" "" }
      "models/a.ini" "mbal_for_verification.txt" = ⟨false, "Failed: out text", 1⟩ := by
  constructor
  · have h := C7_nonzero_exit_diagnostic "kalixcli" "sim"
      { pathExists := fun _ => true, engine := fun _ _ => EngineBehavior.runs 0 1 "out text" "boom" }
      "models/a.ini" "mbal_for_verification.txt" 0 1 "out text" "boom" rfl rfl
      (by decide) (by decide)
    exact h.trans (by decide)
  · have h := C7_nonzero_exit_diagnostic "kalixcli" "sim"
      { pathExists := fun _ => true, engine := fun _ _ => EngineBehavior.runs 0 1 "out text" "" }
      "models/a.ini" "mbal_for_verification.txt" 0 1 "out text" "" rfl rfl
      (by decide) (by decide)
    exact h.trans (by decide)

/-- C8: every fault raised while spawning or communicating with the engine
subprocess is caught inside `verify_model` and converted to a failure
outcome whose message describes the fault (the embedding is a total
function, so no fault propagates), and — for arbitrary environments,
including ones where engines fault — every discovered model still gets
exactly its own outcome entry, so one model's fault never prevents the
remaining models from running. -/
theorem C8_spawn_fault_caught (bin sub : String) (env : Env) (mp mbal desc : String)
    (hex : env.pathExists (mbal_path mp mbal) = true)
    (heng : env.engine [bin, sub, basename mp, "-v", mbal] (dirname mp)
      = EngineBehavior.raises desc) :
    verifyCore bin sub env mp mbal = ⟨false, "Error: " ++ desc, 1⟩ ∧
    strContains (verifyCore bin sub env mp mbal).message desc = true ∧
    (∀ (env' : Env) (root_dir : String) (w : WalkOutput),
      (VerifyAllModels.main env' root_dir w).results.map Prod.fst
        = (find_model_files w).map fun q => relpath q root_dir) := by
  have h := verifyCore_raised bin sub env mp mbal desc hex heng
  refine ⟨h, by rw [h]; exact strContains_append_right _ _, ?_⟩
  intro env' root_dir w
  rw [main_results_eq, List.map_map]
  rfl

/-- Witness for C8 at a concrete input: a missing engine binary
(`FileNotFoundError`) becomes a per-model failure outcome describing it. -/
theorem C8_spawn_fault_caught_witness :
    verifyCore "kalixcli" "sim"
      { pathExists := fun _ => true,
        engine := fun _ _ => EngineBehavior.raises "No such file or directory: kalixcli" }
      "models/a.ini" "mbal_for_verification.txt"
      = ⟨false, "Error: No such file or directory: kalixcli", 1⟩ :=
  (C8_spawn_fault_caught "kalixcli" "sim" _ "models/a.ini" "mbal_for_verification.txt"
    "No such file or directory: kalixcli" rfl rfl).1

theorem main_empty (env : Env) (root_dir : String) (w : WalkOutput)
    (hE : find_model_files w = []) :
    VerifyAllModels.main env root_dir w =
      ⟨["Searching for model files in: " ++ root_dir, eqBar, "No .ini files found!"],
        [], 1⟩ := by
  unfold VerifyAllModels.main
  simp [hE]

/-! ### Claims about the aggregate run -/

theorem sim_main_results_eq (env : Env) (root_dir : String) (w : WalkOutput) (ts : String) :
    (Simulations.main env root_dir w ts).results
      = (find_model_files w).map fun mp =>
          (relpath mp root_dir, (Simulations.verify_model env mp).success,
            (Simulations.verify_model env mp).message) := by
  unfold Simulations.main
  by_cases h : (find_model_files w).isEmpty
  · rw [List.isEmpty_iff] at h
    simp [h]
  · simp only [h, if_false, Bool.false_eq_true, List.map_map]
    rfl

theorem sim_main_exitCode_eq (env : Env) (root_dir : String) (w : WalkOutput) (ts : String) :
    (Simulations.main env root_dir w ts).exitCode
      = if (find_model_files w).isEmpty then 1
        else if 0 < failedCount (Simulations.main env root_dir w ts).results then 1
        else 0 := by
  unfold Simulations.main
  by_cases h : (find_model_files w).isEmpty
  · simp [h]
  · simp only [h, if_false, Bool.false_eq_true, List.map_map]

theorem sim_main_empty (env : Env) (root_dir : String) (w : WalkOutput) (ts : String)
    (hE : find_model_files w = []) :
    Simulations.main env root_dir w ts =
      ⟨Ev.deleteLog :: (["Searching for model files in: " ++ root_dir, eqBar,
          "No .ini files found!"]).map Ev.emit, [], 1⟩ := by
  unfold Simulations.main
  simp [hE]

theorem exitCode_zero_iff (R : List (String × Bool × String)) :
    ((if 0 < failedCount R then 1 else 0) = (0 : Nat) ↔ ∀ t ∈ R, t.2.1 = true) ∧
    ((if 0 < failedCount R then 1 else 0) = (0 : Nat) ∨
      (if 0 < failedCount R then 1 else 0) = (1 : Nat)) := by
  have hle := passedCount_le_length R
  constructor
  · constructor
    · intro h0
      by_cases hf : 0 < failedCount R
      · rw [if_pos hf] at h0
        exact absurd h0 one_ne_zero
      · have hp : passedCount R = R.length := by
          unfold failedCount at hf
          omega
        exact (passedCount_eq_length_iff R).mp hp
    · intro hall
      have hp := (passedCount_eq_length_iff R).mpr hall
      rw [if_neg (by unfold failedCount; omega)]
  · by_cases hf : 0 < failedCount R
    · rw [if_pos hf]
      exact Or.inr rfl
    · rw [if_neg hf]
      exact Or.inl rfl

/-- C3: in both variants, the number of per-model outcome entries equals the
number of model files discovered, the reported passed count plus the
reported failed count equals that total, and (via the path column) no
discovered model is omitted from the results. -/
theorem C3_results_counts (env : Env) (root_dir : String) (w : WalkOutput) (ts : String) :
    ((VerifyAllModels.main env root_dir w).results.length = (find_model_files w).length ∧
    passedCount (VerifyAllModels.main env root_dir w).results
      + failedCount (VerifyAllModels.main env root_dir w).results
      = (VerifyAllModels.main env root_dir w).results.length ∧
    (VerifyAllModels.main env root_dir w).results.map Prod.fst
      = (find_model_files w).map fun q => relpath q root_dir) ∧
    ((Simulations.main env root_dir w ts).results.length = (find_model_files w).length ∧
    passedCount (Simulations.main env root_dir w ts).results
      + failedCount (Simulations.main env root_dir w ts).results
      = (Simulations.main env root_dir w ts).results.length ∧
    (Simulations.main env root_dir w ts).results.map Prod.fst
      = (find_model_files w).map fun q => relpath q root_dir) := by
  refine ⟨⟨?_, ?_, ?_⟩, ⟨?_, ?_, ?_⟩⟩
  · rw [main_results_eq, List.length_map]
  · have h := passedCount_le_length (VerifyAllModels.main env root_dir w).results
    unfold failedCount
    omega
  · rw [main_results_eq, List.map_map]
    rfl
  · rw [sim_main_results_eq, List.length_map]
  · have h := passedCount_le_length (Simulations.main env root_dir w ts).results
    unfold failedCount
    omega
  · rw [sim_main_results_eq, List.map_map]
    rfl

/-- C4: in both variants, the harness exits with status 0 iff at least one
model file was discovered and every outcome succeeded; the exit status is
always 0 or 1; and with zero discovered models it exits 1 emitting only the
search header and the no-files notice (no per-model lines) and an empty
results list. -/
theorem C4_exit_status (env : Env) (root_dir : String) (w : WalkOutput) (ts : String) :
    ((VerifyAllModels.main env root_dir w).exitCode = 0 ↔
      find_model_files w ≠ [] ∧
        ∀ t ∈ (VerifyAllModels.main env root_dir w).results, t.2.1 = true) ∧
    ((VerifyAllModels.main env root_dir w).exitCode = 0 ∨
      (VerifyAllModels.main env root_dir w).exitCode = 1) ∧
    (find_model_files w = [] →
      (VerifyAllModels.main env root_dir w).exitCode = 1 ∧
      (VerifyAllModels.main env root_dir w).lines
        = ["Searching for model files in: " ++ root_dir, eqBar, "No .ini files found!"] ∧
      (VerifyAllModels.main env root_dir w).results = []) ∧
    ((Simulations.main env root_dir w ts).exitCode = 0 ↔
      find_model_files w ≠ [] ∧
        ∀ t ∈ (Simulations.main env root_dir w ts).results, t.2.1 = true) ∧
    ((Simulations.main env root_dir w ts).exitCode = 0 ∨
      (Simulations.main env root_dir w ts).exitCode = 1) ∧
    (find_model_files w = [] →
      (Simulations.main env root_dir w ts).exitCode = 1 ∧
      emittedLines (Simulations.main env root_dir w ts).events
        = ["Searching for model files in: " ++ root_dir, eqBar, "No .ini files found!"] ∧
      (Simulations.main env root_dir w ts).results = []) := by
  by_cases hE : find_model_files w = []
  · rw [main_empty env root_dir w hE, sim_main_empty env root_dir w ts hE]
    simp [hE, emittedLines, List.filterMap_cons]
  · have hne : (find_model_files w).isEmpty = false := by
      simp [List.isEmpty_iff, hE]
    have hx := main_exitCode_eq env root_dir w
    have hy := sim_main_exitCode_eq env root_dir w ts
    rw [hne] at hx hy
    simp only [Bool.false_eq_true, if_false] at hx hy
    obtain ⟨hb1, hb2⟩ := exitCode_zero_iff (VerifyAllModels.main env root_dir w).results
    obtain ⟨hs1, hs2⟩ := exitCode_zero_iff (Simulations.main env root_dir w ts).results
    refine ⟨?_, ?_, fun h => absurd h hE, ?_, ?_, fun h => absurd h hE⟩
    · rw [hx]
      constructor
      · intro h0
        exact ⟨hE, hb1.mp h0⟩
      · rintro ⟨-, hall⟩
        exact hb1.mpr hall
    · rw [hx]
      exact hb2
    · rw [hy]
      constructor
      · intro h0
        exact ⟨hE, hs1.mp h0⟩
      · rintro ⟨-, hall⟩
        exact hs1.mpr hall
    · rw [hy]
      exact hs2

/-- Witness for C4 at concrete inputs, instantiating the theorem for both
variants (the statement is universally quantified with no side
conditions). -/
theorem C4_exit_status_witness :
    ((VerifyAllModels.main
        { pathExists := fun _ => true, engine := fun _ _ => EngineBehavior.runs 0 0 "VERIFIED!" "" }
        "r" [("r", ["a.ini"])]).exitCode = 0 ∨
      (VerifyAllModels.main
        { pathExists := fun _ => true, engine := fun _ _ => EngineBehavior.runs 0 0 "VERIFIED!" "" }
        "r" [("r", ["a.ini"])]).exitCode = 1) ∧
    ((Simulations.main
        { pathExists := fun _ => true, engine := fun _ _ => EngineBehavior.runs 0 0 "VERIFIED!" "" }
        "r" [("r", ["a.ini"])] "2026-01-01T00:00:00").exitCode = 0 ∨
      (Simulations.main
        { pathExists := fun _ => true, engine := fun _ _ => EngineBehavior.runs 0 0 "VERIFIED!" "" }
        "r" [("r", ["a.ini"])] "2026-01-01T00:00:00").exitCode = 1) :=
  ⟨(C4_exit_status
      { pathExists := fun _ => true, engine := fun _ _ => EngineBehavior.runs 0 0 "VERIFIED!" "" }
      "r" [("r", ["a.ini"])] "2026-01-01T00:00:00").2.1,
   (C4_exit_status
      { pathExists := fun _ => true, engine := fun _ _ => EngineBehavior.runs 0 0 "VERIFIED!" "" }
      "r" [("r", ["a.ini"])] "2026-01-01T00:00:00").2.2.2.2.1⟩

/-- C10: an invalid search root (a path that does not exist or is not a
directory) makes `os.walk` yield nothing, so `find_model_files` raises no
exception and returns the empty list, and the harness treats it exactly
like a tree with zero model files: the no-files report and exit status 1. -/
theorem C10_invalid_root (env : Env) (root_dir : String) :
    find_model_files ([] : WalkOutput) = [] ∧
    VerifyAllModels.main env root_dir []
      = ⟨["Searching for model files in: " ++ root_dir, eqBar, "No .ini files found!"],
          [], 1⟩ := by
  have hE : find_model_files ([] : WalkOutput) = [] := by
    simp [find_model_files, ini_files]
  exact ⟨hE, main_empty env root_dir [] hE⟩

/-- C5: `find_model_files` returns exactly the files of the walked tree whose
name ends with ".ini" (no content filtering), its result is sorted in
lexicographic path order, and the result is independent of the filesystem
enumeration order: any two enumerations producing the same collection of
`.ini` paths yield the identical sorted sequence. -/
theorem C5_discovery_sorted (w w' : WalkOutput)
    (hperm : List.Perm (ini_files w) (ini_files w')) :
    List.Perm (find_model_files w) (ini_files w) ∧
    (∀ p, p ∈ find_model_files w ↔
      ∃ pr ∈ w, ∃ f ∈ pr.2, strEndsWith f ".ini" = true ∧ p = pathJoin pr.1 f) ∧
    List.Sorted (fun a b => a ≤ b) (find_model_files w) ∧
    find_model_files w = find_model_files w' := by
  refine ⟨List.mergeSort_perm _ _, ?_, List.sorted_mergeSort' (ini_files w), ?_⟩
  · intro p
    simp only [find_model_files, List.mem_mergeSort, ini_files, List.mem_flatMap,
      List.mem_map, List.mem_filter]
    constructor
    · rintro ⟨pr, hpr, f, ⟨hf, he⟩, rfl⟩
      exact ⟨pr, hpr, f, hf, he, rfl⟩
    · rintro ⟨pr, hpr, f, hf, he, rfl⟩
      exact ⟨pr, hpr, f, ⟨hf, he⟩, rfl⟩
  · exact List.eq_of_perm_of_sorted
      ((List.mergeSort_perm _ _).trans (hperm.trans (List.mergeSort_perm _ _).symm))
      (List.sorted_mergeSort' (ini_files w))
      (List.sorted_mergeSort' (ini_files w'))

/-- Witness for C5 at concrete inputs: two different enumeration orders of
the same tree (and a non-`.ini` file that is filtered out). -/
theorem C5_discovery_sorted_witness :
    List.Perm (ini_files [("r", ["b.ini", "a.ini", "notes.txt"])])
      (ini_files [("r", ["a.ini"]), ("r", ["b.ini"])]) ∧
    (List.Perm (find_model_files [("r", ["b.ini", "a.ini", "notes.txt"])])
      (ini_files [("r", ["b.ini", "a.ini", "notes.txt"])]) ∧
    (∀ p, p ∈ find_model_files [("r", ["b.ini", "a.ini", "notes.txt"])] ↔
      ∃ pr ∈ [("r", ["b.ini", "a.ini", "notes.txt"])], ∃ f ∈ pr.2,
        strEndsWith f ".ini" = true ∧ p = pathJoin pr.1 f) ∧
    List.Sorted (fun a b => a ≤ b) (find_model_files [("r", ["b.ini", "a.ini", "notes.txt"])]) ∧
    find_model_files [("r", ["b.ini", "a.ini", "notes.txt"])]
      = find_model_files [("r", ["a.ini"]), ("r", ["b.ini"])]) :=
  ⟨by decide,
   C5_discovery_sorted [("r", ["b.ini", "a.ini", "notes.txt"])]
     [("r", ["a.ini"]), ("r", ["b.ini"])] (by decide)⟩

/-! ### Log-file lifecycle of the simulations variant -/

theorem logFileAfter_append (init : Option String) (l₁ l₂ : List Ev) :
    logFileAfter init (l₁ ++ l₂) = logFileAfter (logFileAfter init l₁) l₂ := by
  induction l₁ generalizing init with
  | nil => rfl
  | cons e rest ih => cases e <;> simp [logFileAfter, ih]

theorem logFileAfter_of_emits (init : Option String) (l : List Ev)
    (h : ∀ e ∈ l, Ev.isEmit e = true) : logFileAfter init l = init := by
  induction l with
  | nil => rfl
  | cons e rest ih =>
    cases e with
    | emit s => exact ih fun x hx => h x (List.mem_cons_of_mem _ hx)
    | deleteLog => exact absurd (h _ (List.mem_cons_self _ _)) (by simp [Ev.isEmit])
    | writeLog c => exact absurd (h _ (List.mem_cons_self _ _)) (by simp [Ev.isEmit])

theorem filterMap_emit (L : List String) :
    (L.map Ev.emit).filterMap
      (fun e => match e with | .emit s => some s | _ => none) = L := by
  induction L with
  | nil => rfl
  | cons s rest ih => simp only [List.map_cons, List.filterMap_cons, ih]

theorem emittedLines_shape (L : List String) (c : String) :
    emittedLines (Ev.deleteLog :: (L.map Ev.emit ++ [Ev.writeLog c])) = L := by
  unfold emittedLines
  rw [List.filterMap_cons, List.filterMap_append, filterMap_emit]
  simp

theorem prefix_of_append_singleton {α : Type} (p l : List α) (a : α)
    (hp : p <+: l ++ [a]) (hlen : p.length ≤ l.length) : p <+: l := by
  rw [List.prefix_iff_eq_take] at hp
  rw [List.take_append_of_le_length hlen] at hp
  rw [hp]
  exact List.take_prefix _ _

theorem sim_main_events_shape (env : Env) (root_dir : String) (w : WalkOutput)
    (ts : String) (hE : find_model_files w ≠ []) :
    ∃ L : List String,
      (Simulations.main env root_dir w ts).events
        = Ev.deleteLog ::
            (L.map Ev.emit ++ [Ev.writeLog (String.intercalate "\n" L ++ "\n")]) := by
  unfold Simulations.main
  have hne : (find_model_files w).isEmpty = false := by
    simp [List.isEmpty_iff, hE]
  simp only [hne, Bool.false_eq_true, if_false]
  exact ⟨_, rfl⟩

/-- C9: in the logging variant, the first filesystem action of a run is the
deletion of any pre-existing log file, every event strictly between that
deletion and the end of the run is a console-line emission (so the log is
written exactly once, as the very last action, after the whole summary), the
written content is the newline-join of all emitted console lines plus a
trailing newline, any interrupted run (a proper non-empty prefix of the
event trace) leaves no log file behind, and a completed run leaves exactly
that content. -/
theorem C9_log_lifecycle (env : Env) (root_dir : String) (w : WalkOutput)
    (ts : String) (init : Option String) (hE : find_model_files w ≠ []) :
    ∃ body content,
      (Simulations.main env root_dir w ts).events
        = Ev.deleteLog :: (body ++ [Ev.writeLog content]) ∧
      (∀ e ∈ body, Ev.isEmit e = true) ∧
      content = String.intercalate "\n"
        (emittedLines (Simulations.main env root_dir w ts).events) ++ "\n" ∧
      (∀ p, p <+: (Simulations.main env root_dir w ts).events → p ≠ [] →
        p.length < (Simulations.main env root_dir w ts).events.length →
        logFileAfter init p = none) ∧
      logFileAfter init (Simulations.main env root_dir w ts).events = some content := by
  obtain ⟨L, hL⟩ := sim_main_events_shape env root_dir w ts hE
  have hallL : ∀ e ∈ L.map Ev.emit, Ev.isEmit e = true := by
    intro e he
    obtain ⟨s, -, rfl⟩ := List.mem_map.mp he
    rfl
  refine ⟨L.map Ev.emit, String.intercalate "\n" L ++ "\n", by rw [hL], hallL, ?_, ?_, ?_⟩
  · rw [hL, emittedLines_shape]
  · intro p hp hpne hlen
    rw [hL] at hp hlen
    cases p with
    | nil => exact absurd rfl hpne
    | cons a q =>
      rw [List.cons_prefix_cons] at hp
      obtain ⟨rfl, hq⟩ := hp
      have hqlen : q.length ≤ (L.map Ev.emit).length := by
        simp only [List.length_cons, List.length_append, List.length_map] at hlen ⊢
        simp only [List.length_cons, List.length_nil] at hlen
        omega
      have hq' : q <+: L.map Ev.emit := prefix_of_append_singleton q _ _ hq hqlen
      have hall : ∀ e ∈ q, Ev.isEmit e = true := fun e he => hallL e (hq'.subset he)
      show logFileAfter none q = none
      exact logFileAfter_of_emits none q hall
  · rw [hL]
    show logFileAfter none (L.map Ev.emit ++ [Ev.writeLog (String.intercalate "\n" L ++ "\n")])
      = some (String.intercalate "\n" L ++ "\n")
    rw [logFileAfter_append, logFileAfter_of_emits none (L.map Ev.emit) hallL]
    rfl

/-- Witness for C9 at a concrete input: one model, a stale pre-existing log
file as the initial state. -/
theorem C9_log_lifecycle_witness :
    find_model_files [("r", ["a.ini"])] ≠ [] ∧
    (∃ body content,
      (Simulations.main
        { pathExists := fun _ => true, engine := fun _ _ => EngineBehavior.runs 0 0 "VERIFIED!" "" }
        "r" [("r", ["a.ini"])] "2026-01-01T00:00:00").events
        = Ev.deleteLog :: (body ++ [Ev.writeLog content]) ∧
      (∀ e ∈ body, Ev.isEmit e = true) ∧
      content = String.intercalate "\n"
        (emittedLines (Simulations.main
          { pathExists := fun _ => true, engine := fun _ _ => EngineBehavior.runs 0 0 "VERIFIED!" "" }
          "r" [("r", ["a.ini"])] "2026-01-01T00:00:00").events) ++ "\n" ∧
      (∀ p, p <+: (Simulations.main
          { pathExists := fun _ => true, engine := fun _ _ => EngineBehavior.runs 0 0 "VERIFIED!" "" }
          "r" [("r", ["a.ini"])] "2026-01-01T00:00:00").events → p ≠ [] →
        p.length < (Simulations.main
          { pathExists := fun _ => true, engine := fun _ _ => EngineBehavior.runs 0 0 "VERIFIED!" "" }
          "r" [("r", ["a.ini"])] "2026-01-01T00:00:00").events.length →
        logFileAfter (some "stale") p = none) ∧
      logFileAfter (some "stale") (Simulations.main
        { pathExists := fun _ => true, engine := fun _ _ => EngineBehavior.runs 0 0 "VERIFIED!" "" }
        "r" [("r", ["a.ini"])] "2026-01-01T00:00:00").events = some content) := by
  have h1 : find_model_files [("r", ["a.ini"])] = ["r/a.ini"] := by
    unfold find_model_files
    rw [show ini_files [("r", ["a.ini"])] = ["r/a.ini"] from by decide]
    exact List.mergeSort_singleton _
  have hE : find_model_files [("r", ["a.ini"])] ≠ [] := by
    rw [h1]
    simp
  exact ⟨hE, C9_log_lifecycle
    { pathExists := fun _ => true, engine := fun _ _ => EngineBehavior.runs 0 0 "VERIFIED!" "" }
    "r" [("r", ["a.ini"])] "2026-01-01T00:00:00" (some "stale") hE⟩
